import Mathlib

/-!
Shallow embedding of the synthetic property-data generator in
`src/step2_realistic_data.py` (function `create_realistic_property_data`,
lines 18-121), together with the module-level context it runs in:

* The Python module seeds the process-wide `random` module once at import
  time (lines 14-16).  We model the seeded pseudo-random source as an
  abstract deterministic stream `s : Nat → Nat` (the sequence of raw values
  the library produces after seeding) together with a cursor `pos : Nat`
  recording how far the global stream has been consumed.  Each call to a
  `random` library primitive consumes exactly one cell of the stream.
  Quantifying theorems over every stream `s` covers every possible sequence
  of draws, so range/invariant theorems hold for the real generator
  whatever the seed.
* `random.randint a b` returns an integer in `[a, b]`; we model the choice
  of offset by `s pos % (b + 1 - a)`, which realises every value in the
  interval as `s` varies.
* `random.random()` returns `k / 2^53` with `k` uniform in `[0, 2^53)`
  (CPython generates exactly 53 random bits); `random.uniform a b` is
  `a + (b - a) * random()`.
* `random.choice seq` is `seq[randbelow(len(seq))]` and raises `IndexError`
  on an empty sequence.
* Python floats are modelled exactly as rationals (the "open question" of
  §9 of the spec leaves the rounding mode per step to the implementer; we
  pin real-valued arithmetic to exact rational arithmetic).  Python `int()`
  truncates toward zero and Python `round(x, 2)` rounds half to even.
* `datetime.now()` (line 105) is an ambient read of the wall clock; we pass
  the current day number `now : ℤ` explicitly, and model dates at day
  granularity (the code only ever subtracts whole days and formats the
  year-month label).
-/

/-- Errors a call of the generator can surface.  The code itself can only
produce `indexError` (from `random.choice` on an empty sequence); the
remaining constructors name the error classes the specification talks
about, so that statements can compare against them. -/
inductive GenError where
  | indexError
  | configurationError
  | invalidArgument
  deriving DecidableEq, Repr

/-- Per-city configuration, from the `cities_info` dictionary entries
(lines 24-55). -/
structure CityInfo where
  base_price_per_sqft : ℤ
  price_variation : ℚ
  avg_area_multiplier : ℚ
  deriving DecidableEq, Repr

/-- Per-property-type configuration, from the `property_types` dictionary
entries (lines 58-63). -/
structure TypeInfo where
  min_area : ℤ
  max_area : ℤ
  deriving DecidableEq, Repr

/-- One generated property record, with the fields of the dictionary
appended at lines 107-119.  `listing_date` is the day number of the
listing; `month_listed` is its (year, month) label. -/
structure PropertyRecord where
  city : String
  property_type : String
  area_sqft : ℤ
  price_lakhs : ℚ
  price_per_sqft : ℤ
  property_age_years : ℤ
  floor_number : ℤ
  total_floors : ℤ
  location_score : ℤ
  listing_date : ℤ
  month_listed : ℤ × ℤ
  deriving DecidableEq, Repr

instance {ε α : Type} [DecidableEq ε] [DecidableEq α] : DecidableEq (Except ε α) := by
  intro a b
  cases a <;> cases b
  case error.error x y =>
    exact if h : x = y then .isTrue (by simp [h]) else .isFalse (by simp [h])
  case ok.ok x y =>
    exact if h : x = y then .isTrue (by simp [h]) else .isFalse (by simp [h])
  case error.ok x y => exact .isFalse (by simp)
  case ok.error x y => exact .isFalse (by simp)

/-- Python `int()` applied to a rational: truncation toward zero. -/
def pyInt (q : ℚ) : ℤ := if 0 ≤ q then ⌊q⌋ else ⌈q⌉

/-- Python `round` to an integer: round half to even. -/
def roundHalfEven (q : ℚ) : ℤ :=
  if q - ⌊q⌋ < 1/2 then ⌊q⌋
  else if 1/2 < q - ⌊q⌋ then ⌊q⌋ + 1
  else if 2 ∣ ⌊q⌋ then ⌊q⌋ else ⌊q⌋ + 1

/-- Python `round(q, 2)`: round to two decimal places. -/
def round2 (q : ℚ) : ℚ := (roundHalfEven (q * 100) : ℚ) / 100

/-- Model of `random.choice`: index the sequence by the next raw draw
reduced modulo the length; `IndexError` on an empty sequence. -/
def pyChoice {α : Type} (s : Nat → Nat) (pos : Nat) (l : List α) : Except GenError α :=
  match l[s pos % l.length]? with
  | some a => Except.ok a
  | none => Except.error GenError.indexError

/-- Model of `random.randint a b`: an integer in `[a, b]` selected by the
next raw draw (every call site of the source has `a ≤ b`). -/
def pyRandint (s : Nat → Nat) (pos : Nat) (a b : ℤ) : ℤ :=
  a + ((s pos % (b + 1 - a).toNat : ℕ) : ℤ)

/-- Model of `random.random()`: a 53-bit draw divided by `2^53`, hence a
rational in `[0, 1)`. -/
def pyRandom (s : Nat → Nat) (pos : Nat) : ℚ :=
  ((s pos % 2 ^ 53 : ℕ) : ℚ) / 2 ^ 53

/-- Model of `random.uniform a b`, which CPython computes as
`a + (b - a) * random()`. -/
def pyUniform (s : Nat → Nat) (pos : Nat) (a b : ℚ) : ℚ :=
  a + (b - a) * pyRandom s pos

/-- Gregorian (year, month) of the day numbered `z` (days since
1970-01-01), the label `listing_date.strftime("%Y-%m")` renders.  Standard
civil-from-days computation; all divisions are floor divisions. -/
def yearMonthOf (z : ℤ) : ℤ × ℤ :=
  let zz := z + 719468
  let era := zz / 146097
  let doe := zz - era * 146097
  let yoe := (doe - doe / 1460 + doe / 36524 - doe / 146096) / 365
  let doy := doe - (365 * yoe + yoe / 4 - yoe / 100)
  let mp := (5 * doy + 2) / 153
  let m := if mp < 10 then mp + 3 else mp - 9
  (if m ≤ 2 then yoe + era * 400 + 1 else yoe + era * 400, m)

/-- The `cities_info` dictionary (lines 24-55), in insertion order. -/
def cities_info : List (String × CityInfo) :=
  [("Mumbai", ⟨15000, 0.4, 0.8⟩),
   ("Delhi", ⟨12000, 0.3, 1.0⟩),
   ("Bangalore", ⟨8000, 0.5, 1.2⟩),
   ("Chennai", ⟨7000, 0.3, 1.1⟩),
   ("Pune", ⟨7500, 0.4, 1.1⟩),
   ("Hyderabad", ⟨6500, 0.5, 1.3⟩)]

/-- The `property_types` dictionary (lines 58-63), in insertion order. -/
def property_types : List (String × TypeInfo) :=
  [("1BHK", ⟨400, 600⟩),
   ("2BHK", ⟨600, 900⟩),
   ("3BHK", ⟨900, 1400⟩),
   ("4BHK", ⟨1400, 2000⟩)]

/-- One iteration of the loop body (lines 67-119), starting at stream
cursor `pos`; it consumes the nine library draws in source order at
cursors `pos`, `pos+1`, ..., `pos+8`. -/
def genRecord (cities : List (String × CityInfo)) (types : List (String × TypeInfo))
    (s : Nat → Nat) (now : ℤ) (pos : Nat) : Except GenError PropertyRecord :=
  match pyChoice s pos cities with
  | Except.error e => Except.error e
  | Except.ok (city, city_data) =>
    match pyChoice s (pos + 1) types with
    | Except.error e => Except.error e
    | Except.ok (prop_type, prop_data) =>
      let base_area : ℤ := pyRandint s (pos + 2) prop_data.min_area prop_data.max_area
      let area : ℤ := pyInt ((base_area : ℚ) * city_data.avg_area_multiplier)
      let price_var : ℚ := pyUniform s (pos + 3)
        (1 - city_data.price_variation) (1 + city_data.price_variation)
      let price_per_sqft : ℤ := pyInt ((city_data.base_price_per_sqft : ℚ) * price_var)
      let total_price_lakhs : ℚ := ((price_per_sqft * area : ℤ) : ℚ) / 100000
      let property_age : ℤ := pyRandint s (pos + 4) 0 25
      let floor_number : ℤ := pyRandint s (pos + 5) 1 20
      let total_floors : ℤ := pyRandint s (pos + 6) floor_number 25
      let location_score : ℤ := pyRandint s (pos + 7) 1 10
      let location_bonus : ℚ := 1 + ((location_score : ℚ) - 5) * 0.02
      let age_penalty : ℚ := 1 - (property_age : ℚ) * 0.01
      let final_price : ℚ := total_price_lakhs * location_bonus * age_penalty
      let days_ago : ℤ := pyRandint s (pos + 8) 1 730
      let listing_date : ℤ := now - days_ago
      Except.ok
        { city := city
          property_type := prop_type
          area_sqft := area
          price_lakhs := round2 final_price
          price_per_sqft := price_per_sqft
          property_age_years := property_age
          floor_number := floor_number
          total_floors := total_floors
          location_score := location_score
          listing_date := listing_date
          month_listed := yearMonthOf listing_date }

/-- The generation loop (`for i in range(num_properties)`), threading the
global stream cursor; returns the accumulated records in generation order
together with the cursor position after the call. -/
def genLoop (cities : List (String × CityInfo)) (types : List (String × TypeInfo))
    (s : Nat → Nat) (now : ℤ) : Nat → Nat → Except GenError (List PropertyRecord × Nat)
  | 0, pos => Except.ok ([], pos)
  | n + 1, pos =>
    match genRecord cities types s now pos with
    | Except.error e => Except.error e
    | Except.ok r =>
      match genLoop cities types s now n (pos + 9) with
      | Except.error e => Except.error e
      | Except.ok (rs, p) => Except.ok (r :: rs, p)

/-- The function `create_realistic_property_data(num_properties)` of the
source, with its ambient context made explicit: the seeded global stream
`s` with its current cursor `pos`, and the current day `now` read through
`datetime.now()`.  A Python `for i in range(n)` performs `max n 0`
iterations, so a non-positive count yields the empty record list. -/
def create_realistic_property_data (s : Nat → Nat) (now : ℤ) (num_properties : ℤ)
    (pos : Nat) : Except GenError (List PropertyRecord × Nat) :=
  genLoop cities_info property_types s now num_properties.toNat pos

/-- Recomputation of the derived price (lines 87-101 and 111) from the
stored fields: `round(rawTotal * locationBonus * agePenalty, 2)` with
`rawTotal = pricePerArea * areaUnits / 100000`,
`locationBonus = 1 + (locationScore - 5) * 0.02` and
`agePenalty = 1 - ageYears * 0.01`. -/
def priceFormula (pps area ls age : ℤ) : ℚ :=
  round2 ((((pps * area : ℤ) : ℚ) / 100000) * (1 + ((ls : ℚ) - 5) * 0.02)
    * (1 - (age : ℚ) * 0.01))

/-- The fields of a record other than the two dating fields
(`listing_date` and `month_listed`). -/
def sampledFields (r : PropertyRecord) : String × String × ℤ × ℚ × ℤ × ℤ × ℤ × ℤ × ℤ :=
  (r.city, r.property_type, r.area_sqft, r.price_lakhs, r.price_per_sqft,
   r.property_age_years, r.floor_number, r.total_floors, r.location_score)

/-- A concrete stream for witnesses: every raw draw is `0`. -/
def constStream : Nat → Nat := fun _ => 0

/-- The record generated from `constStream` at cursor `0` with `now = 0`:
Mumbai 1BHK, base area 400 scaled by 0.8, price per sqft
`int(15000 * 0.6) = 9000`, raw total `28.8` lakhs, location score 1
(bonus `0.92`), age 0 (penalty `1`), price `round(26.496, 2) = 26.5`,
listed one day before day `0`. -/
def rec0 : PropertyRecord :=
  { city := "Mumbai"
    property_type := "1BHK"
    area_sqft := 320
    price_lakhs := 53/2
    price_per_sqft := 9000
    property_age_years := 0
    floor_number := 1
    total_floors := 1
    location_score := 1
    listing_date := -1
    month_listed := (1969, 12) }

/-- A concrete stream for the Mumbai/2BHK scenario: the second draw (the
property-type choice) selects index `1`, every other draw is `0`. -/
def mumbaiStream : Nat → Nat := fun k => if k = 1 then 1 else 0

/-- The record generated from `mumbaiStream` at cursor `0` with `now = 0`:
a Mumbai 2BHK with base area 600 scaled by 0.8, price per sqft
`int(15000 * 0.6) = 9000`, and price `round(43.2 * 0.92, 2) = 39.74`. -/
def rec1 : PropertyRecord :=
  { city := "Mumbai"
    property_type := "2BHK"
    area_sqft := 480
    price_lakhs := 1987/50
    price_per_sqft := 9000
    property_age_years := 0
    floor_number := 1
    total_floors := 1
    location_score := 1
    listing_date := -1
    month_listed := (1969, 12) }

lemma pyChoice_mem {α : Type} {s : Nat → Nat} {pos : Nat} {l : List α} {a : α}
    (h : pyChoice s pos l = Except.ok a) : a ∈ l := by
  unfold pyChoice at h
  cases hg : l[s pos % l.length]? with
  | none => rw [hg] at h; exact absurd h (by simp)
  | some b =>
    rw [hg] at h
    obtain ⟨hlt, hb⟩ := List.getElem?_eq_some.mp hg
    cases h
    exact hb ▸ List.getElem_mem hlt

lemma pyChoice_nil {α : Type} (s : Nat → Nat) (pos : Nat) :
    pyChoice s pos ([] : List α) = Except.error GenError.indexError := rfl

lemma pyChoice_ok {α : Type} (s : Nat → Nat) (pos : Nat) {l : List α} (h : l ≠ []) :
    ∃ a, pyChoice s pos l = Except.ok a := by
  have hlen : 0 < l.length := List.length_pos.mpr h
  have hlt : s pos % l.length < l.length := Nat.mod_lt _ hlen
  exact ⟨l[s pos % l.length], by unfold pyChoice; rw [List.getElem?_eq_getElem hlt]⟩

lemma pyRandint_ge (s : Nat → Nat) (pos : Nat) (a b : ℤ) : a ≤ pyRandint s pos a b := by
  unfold pyRandint
  have : (0 : ℤ) ≤ ((s pos % (b + 1 - a).toNat : ℕ) : ℤ) := Int.natCast_nonneg _
  omega

lemma pyRandint_le (s : Nat → Nat) (pos : Nat) {a b : ℤ} (h : a ≤ b) :
    pyRandint s pos a b ≤ b := by
  unfold pyRandint
  have hw : (0 : ℤ) < b + 1 - a := by omega
  have hw2 : 0 < (b + 1 - a).toNat := by omega
  have := Nat.mod_lt (s pos) hw2
  omega

lemma pyRandom_nonneg (s : Nat → Nat) (pos : Nat) : 0 ≤ pyRandom s pos := by
  unfold pyRandom
  positivity

lemma pyRandom_lt_one (s : Nat → Nat) (pos : Nat) : pyRandom s pos < 1 := by
  unfold pyRandom
  rw [div_lt_one (by positivity)]
  exact_mod_cast Nat.mod_lt _ (by positivity)

lemma pyUniform_ge (s : Nat → Nat) (pos : Nat) {a b : ℚ} (h : a ≤ b) :
    a ≤ pyUniform s pos a b := by
  unfold pyUniform
  nlinarith [pyRandom_nonneg s pos]

lemma pyUniform_lt (s : Nat → Nat) (pos : Nat) {a b : ℚ} (h : a < b) :
    pyUniform s pos a b < b := by
  unfold pyUniform
  nlinarith [pyRandom_lt_one s pos]

lemma pyInt_eq_floor {q : ℚ} (h : 0 ≤ q) : pyInt q = ⌊q⌋ := by
  unfold pyInt
  exact if_pos h

lemma floor_le_roundHalfEven (q : ℚ) : ⌊q⌋ ≤ roundHalfEven q := by
  unfold roundHalfEven
  split
  · exact le_refl _
  · split
    · omega
    · split <;> omega

lemma round2_pos {q : ℚ} (h : 1 ≤ q) : 0 < round2 q := by
  unfold round2
  have h1 : (1 : ℤ) ≤ ⌊q * 100⌋ := by
    rw [Int.le_floor]
    push_cast
    nlinarith
  have h2 := floor_le_roundHalfEven (q * 100)
  have h3 : (1 : ℚ) ≤ (roundHalfEven (q * 100) : ℚ) := by exact_mod_cast le_trans h1 h2
  nlinarith

lemma genRecord_ok {cities : List (String × CityInfo)} {types : List (String × TypeInfo)}
    {s : Nat → Nat} {now : ℤ} {pos : Nat} {r : PropertyRecord}
    (h : genRecord cities types s now pos = Except.ok r) :
    ∃ c ∈ cities, ∃ t ∈ types,
      r.city = c.1 ∧ r.property_type = t.1 ∧
      r.area_sqft =
        pyInt ((pyRandint s (pos + 2) t.2.min_area t.2.max_area : ℚ) * c.2.avg_area_multiplier) ∧
      r.price_per_sqft = pyInt ((c.2.base_price_per_sqft : ℚ) *
        pyUniform s (pos + 3) (1 - c.2.price_variation) (1 + c.2.price_variation)) ∧
      r.property_age_years = pyRandint s (pos + 4) 0 25 ∧
      r.floor_number = pyRandint s (pos + 5) 1 20 ∧
      r.total_floors = pyRandint s (pos + 6) r.floor_number 25 ∧
      r.location_score = pyRandint s (pos + 7) 1 10 ∧
      r.listing_date = now - pyRandint s (pos + 8) 1 730 ∧
      r.month_listed = yearMonthOf r.listing_date ∧
      r.price_lakhs =
        priceFormula r.price_per_sqft r.area_sqft r.location_score r.property_age_years := by
  unfold genRecord at h
  cases hc : pyChoice s pos cities with
  | error e => rw [hc] at h; exact absurd h (by simp)
  | ok cpair =>
    obtain ⟨cn, cd⟩ := cpair
    rw [hc] at h
    cases ht : pyChoice s (pos + 1) types with
    | error e => rw [ht] at h; exact absurd h (by simp)
    | ok tpair =>
      obtain ⟨tn, td⟩ := tpair
      rw [ht] at h
      simp only [Except.ok.injEq] at h
      subst h
      exact ⟨(cn, cd), pyChoice_mem hc, (tn, td), pyChoice_mem ht,
        rfl, rfl, rfl, rfl, rfl, rfl, rfl, rfl, rfl, rfl, rfl⟩

lemma genRecord_total {cities : List (String × CityInfo)} {types : List (String × TypeInfo)}
    (s : Nat → Nat) (now : ℤ) (pos : Nat) (hc : cities ≠ []) (ht : types ≠ []) :
    ∃ r, genRecord cities types s now pos = Except.ok r := by
  obtain ⟨c, hcc⟩ := pyChoice_ok s pos hc
  obtain ⟨t, htt⟩ := pyChoice_ok s (pos + 1) ht
  obtain ⟨cn, cd⟩ := c
  obtain ⟨tn, td⟩ := t
  unfold genRecord
  rw [hcc, htt]
  exact ⟨_, rfl⟩

lemma genLoop_mem {cities : List (String × CityInfo)} {types : List (String × TypeInfo)}
    {s : Nat → Nat} {now : ℤ} :
    ∀ {n pos recs p} {r : PropertyRecord},
      genLoop cities types s now n pos = Except.ok (recs, p) → r ∈ recs →
      ∃ q, genRecord cities types s now q = Except.ok r := by
  intro n
  induction n with
  | zero =>
    intro pos recs p r h hr
    unfold genLoop at h
    simp only [Except.ok.injEq, Prod.mk.injEq] at h
    rw [← h.1] at hr
    exact absurd hr (List.not_mem_nil r)
  | succ m ih =>
    intro pos recs p r h hr
    unfold genLoop at h
    cases hg : genRecord cities types s now pos with
    | error e => rw [hg] at h; exact absurd h (by simp)
    | ok r0 =>
      rw [hg] at h
      cases hl : genLoop cities types s now m (pos + 9) with
      | error e => rw [hl] at h; exact absurd h (by simp)
      | ok rp =>
        obtain ⟨rs, p2⟩ := rp
        rw [hl] at h
        simp only [Except.ok.injEq, Prod.mk.injEq] at h
        rw [← h.1] at hr
        cases List.mem_cons.mp hr with
        | inl he => exact ⟨pos, he ▸ hg⟩
        | inr hm => exact ih hl hm

lemma genLoop_spec {cities : List (String × CityInfo)} {types : List (String × TypeInfo)}
    {s : Nat → Nat} {now : ℤ} :
    ∀ {n pos recs p},
      genLoop cities types s now n pos = Except.ok (recs, p) →
      recs.length = n ∧ p = pos + 9 * n := by
  intro n
  induction n with
  | zero =>
    intro pos recs p h
    unfold genLoop at h
    simp only [Except.ok.injEq, Prod.mk.injEq] at h
    simp [← h.1, ← h.2]
  | succ m ih =>
    intro pos recs p h
    unfold genLoop at h
    cases hg : genRecord cities types s now pos with
    | error e => rw [hg] at h; exact absurd h (by simp)
    | ok r0 =>
      rw [hg] at h
      cases hl : genLoop cities types s now m (pos + 9) with
      | error e => rw [hl] at h; exact absurd h (by simp)
      | ok rp =>
        obtain ⟨rs, p2⟩ := rp
        rw [hl] at h
        simp only [Except.ok.injEq, Prod.mk.injEq] at h
        obtain ⟨hrec, hlen⟩ := ih hl
        constructor
        · rw [← h.1]; simp [hrec]
        · rw [← h.2]; omega

lemma genLoop_total {cities : List (String × CityInfo)} {types : List (String × TypeInfo)}
    (s : Nat → Nat) (now : ℤ) (hc : cities ≠ []) (ht : types ≠ []) :
    ∀ n pos, ∃ recs p, genLoop cities types s now n pos = Except.ok (recs, p) := by
  intro n
  induction n with
  | zero => exact fun pos => ⟨[], pos, rfl⟩
  | succ m ih =>
    intro pos
    obtain ⟨r, hr⟩ := genRecord_total s now pos hc ht
    obtain ⟨rs, p, hl⟩ := ih (pos + 9)
    refine ⟨r :: rs, p, ?_⟩
    unfold genLoop
    rw [hr, hl]

lemma genRecord_map_sampled (cities : List (String × CityInfo))
    (types : List (String × TypeInfo)) (s : Nat → Nat) (now1 now2 : ℤ) (pos : Nat) :
    Except.map sampledFields (genRecord cities types s now1 pos) =
    Except.map sampledFields (genRecord cities types s now2 pos) := by
  unfold genRecord
  cases pyChoice s pos cities with
  | error e => rfl
  | ok cpair =>
    obtain ⟨cn, cd⟩ := cpair
    cases pyChoice s (pos + 1) types with
    | error e => rfl
    | ok tpair => rfl

lemma genLoop_map_sampled (cities : List (String × CityInfo))
    (types : List (String × TypeInfo)) (s : Nat → Nat) (now1 now2 : ℤ) :
    ∀ n pos,
      Except.map (fun rp => (rp.1.map sampledFields, rp.2))
        (genLoop cities types s now1 n pos) =
      Except.map (fun rp => (rp.1.map sampledFields, rp.2))
        (genLoop cities types s now2 n pos) := by
  intro n
  induction n with
  | zero => intro pos; rfl
  | succ m ih =>
    intro pos
    have hmap := genRecord_map_sampled cities types s now1 now2 pos
    unfold genLoop
    cases hg1 : genRecord cities types s now1 pos with
    | error e =>
      rw [hg1] at hmap
      cases hg2 : genRecord cities types s now2 pos with
      | error e2 =>
        rw [hg2] at hmap
        simp only [Except.map] at hmap ⊢
        cases hmap
        rfl
      | ok r2 =>
        rw [hg2] at hmap
        exact absurd hmap (by simp [Except.map])
    | ok r1 =>
      rw [hg1] at hmap
      cases hg2 : genRecord cities types s now2 pos with
      | error e2 =>
        rw [hg2] at hmap
        exact absurd hmap (by simp [Except.map])
      | ok r2 =>
        rw [hg2] at hmap
        simp only [Except.map, Except.ok.injEq] at hmap
        have hloop := ih (pos + 9)
        cases hl1 : genLoop cities types s now1 m (pos + 9) with
        | error e =>
          rw [hl1] at hloop
          cases hl2 : genLoop cities types s now2 m (pos + 9) with
          | error e2 =>
            rw [hl2] at hloop
            simp only [Except.map] at hloop ⊢
            cases hloop
            rfl
          | ok rp2 =>
            rw [hl2] at hloop
            exact absurd hloop (by simp [Except.map])
        | ok rp1 =>
          rw [hl1] at hloop
          cases hl2 : genLoop cities types s now2 m (pos + 9) with
          | error e2 =>
            rw [hl2] at hloop
            exact absurd hloop (by simp [Except.map])
          | ok rp2 =>
            rw [hl2] at hloop
            obtain ⟨rs1, p1⟩ := rp1
            obtain ⟨rs2, p2⟩ := rp2
            simp only [Except.map, Except.ok.injEq, Prod.mk.injEq] at hloop ⊢
            simp [hmap, hloop.1, hloop.2]

lemma cities_info_bounds {c : String × CityInfo} (h : c ∈ cities_info) :
    6500 ≤ c.2.base_price_per_sqft ∧ 0 ≤ c.2.price_variation ∧
    c.2.price_variation ≤ 1/2 ∧ 4/5 ≤ c.2.avg_area_multiplier := by
  simp only [cities_info, List.mem_cons, List.not_mem_nil, or_false] at h
  rcases h with h | h | h | h | h | h <;> subst h <;> norm_num

lemma property_types_bounds {t : String × TypeInfo} (h : t ∈ property_types) :
    400 ≤ t.2.min_area ∧ t.2.min_area ≤ t.2.max_area := by
  simp only [property_types, List.mem_cons, List.not_mem_nil, or_false] at h
  rcases h with h | h | h | h <;> subst h <;> norm_num

lemma cities_info_mumbai {c : String × CityInfo} (h : c ∈ cities_info)
    (hn : c.1 = "Mumbai") : c.2 = ⟨15000, 0.4, 0.8⟩ := by
  simp only [cities_info, List.mem_cons, List.not_mem_nil, or_false] at h
  rcases h with h | h | h | h | h | h <;> subst h <;> first | rfl | exact absurd hn (by decide)

lemma property_types_2bhk {t : String × TypeInfo} (h : t ∈ property_types)
    (hn : t.1 = "2BHK") : t.2 = ⟨600, 900⟩ := by
  simp only [property_types, List.mem_cons, List.not_mem_nil, or_false] at h
  rcases h with h | h | h | h <;> subst h <;> first | rfl | exact absurd hn (by decide)

lemma genRecord_bounds {cities : List (String × CityInfo)}
    {types : List (String × TypeInfo)} {s : Nat → Nat} {now : ℤ} {pos : Nat}
    {r : PropertyRecord} (h : genRecord cities types s now pos = Except.ok r) :
    1 ≤ r.location_score ∧ r.location_score ≤ 10 ∧
    0 ≤ r.property_age_years ∧ r.property_age_years ≤ 25 ∧
    1 ≤ r.floor_number ∧ r.floor_number ≤ 20 ∧
    r.floor_number ≤ r.total_floors ∧ r.total_floors ≤ 25 := by
  obtain ⟨c, hc, t, ht, _, _, _, _, hage, hfl, htf, hls, _, _, _⟩ := genRecord_ok h
  refine ⟨?_, ?_, ?_, ?_, ?_, ?_, ?_, ?_⟩
  · rw [hls]; exact pyRandint_ge s (pos + 7) 1 10
  · rw [hls]; exact pyRandint_le s (pos + 7) (by norm_num)
  · rw [hage]; exact pyRandint_ge s (pos + 4) 0 25
  · rw [hage]; exact pyRandint_le s (pos + 4) (by norm_num)
  · rw [hfl]; exact pyRandint_ge s (pos + 5) 1 20
  · rw [hfl]; exact pyRandint_le s (pos + 5) (by norm_num)
  · rw [htf]; exact pyRandint_ge s (pos + 6) r.floor_number 25
  · rw [htf]
    refine pyRandint_le s (pos + 6) ?_
    rw [hfl]
    calc pyRandint s (pos + 5) 1 20 ≤ 20 := pyRandint_le s (pos + 5) (by norm_num)
    _ ≤ 25 := by norm_num

lemma pyInt_area_ge {ba : ℤ} {mult : ℚ} (hba : 400 ≤ ba) (hm : 4/5 ≤ mult) :
    320 ≤ pyInt ((ba : ℚ) * mult) := by
  have hbaQ : (400 : ℚ) ≤ (ba : ℚ) := by exact_mod_cast hba
  have hx : (320 : ℚ) ≤ (ba : ℚ) * mult := by nlinarith
  rw [pyInt_eq_floor (by linarith)]
  rw [Int.le_floor]
  exact_mod_cast hx

lemma pyInt_pps_ge {base : ℤ} {v u : ℚ} (hb : 6500 ≤ base) (hv0 : 0 ≤ v)
    (hv : v ≤ 1/2) (hu : 1 - v ≤ u) :
    3250 ≤ pyInt ((base : ℚ) * u) := by
  have hbQ : (6500 : ℚ) ≤ (base : ℚ) := by exact_mod_cast hb
  have hu2 : (1 : ℚ)/2 ≤ u := by linarith
  have hx : (3250 : ℚ) ≤ (base : ℚ) * u := by nlinarith
  rw [pyInt_eq_floor (by linarith)]
  rw [Int.le_floor]
  exact_mod_cast hx

lemma priceFormula_pos {pps area ls age : ℤ} (hp : 3250 ≤ pps) (ha : 320 ≤ area)
    (hl1 : 1 ≤ ls) (hl2 : ls ≤ 10) (hg1 : 0 ≤ age) (hg2 : age ≤ 25) :
    0 < priceFormula pps area ls age := by
  unfold priceFormula
  apply round2_pos
  have hmul : (1040000 : ℤ) ≤ pps * area := by nlinarith
  have hraw : (52 : ℚ)/5 ≤ ((pps * area : ℤ) : ℚ) / 100000 := by
    rw [le_div_iff (by norm_num)]
    calc (52 : ℚ)/5 * 100000 = ((1040000 : ℤ) : ℚ) := by norm_num
    _ ≤ ((pps * area : ℤ) : ℚ) := by exact_mod_cast hmul
  have hbon : (23 : ℚ)/25 ≤ 1 + ((ls : ℚ) - 5) * 0.02 := by
    have : (1 : ℚ) ≤ (ls : ℚ) := by exact_mod_cast hl1
    nlinarith
  have hpen : (3 : ℚ)/4 ≤ 1 - (age : ℚ) * 0.01 := by
    have : (age : ℚ) ≤ 25 := by exact_mod_cast hg2
    nlinarith
  have hrawpos : (0 : ℚ) ≤ ((pps * area : ℤ) : ℚ) / 100000 := by linarith
  have hbonpos : (0 : ℚ) ≤ 1 + ((ls : ℚ) - 5) * 0.02 := by linarith
  have h1 : (52 : ℚ)/5 * (23/25) ≤
      ((pps * area : ℤ) : ℚ) / 100000 * (1 + ((ls : ℚ) - 5) * 0.02) :=
    mul_le_mul hraw hbon (by norm_num) hrawpos
  have h2 : (52 : ℚ)/5 * (23/25) * (3/4) ≤
      ((pps * area : ℤ) : ℚ) / 100000 * (1 + ((ls : ℚ) - 5) * 0.02)
        * (1 - (age : ℚ) * 0.01) :=
    mul_le_mul h1 hpen (by norm_num) (by positivity)
  calc (1 : ℚ) ≤ (52 : ℚ)/5 * (23/25) * (3/4) := by norm_num
  _ ≤ _ := h2

lemma record_mumbai_2bhk {s : Nat → Nat} {now : ℤ} {pos : Nat} {r : PropertyRecord}
    (h : genRecord cities_info property_types s now pos = Except.ok r)
    (hcity : r.city = "Mumbai") (htype : r.property_type = "2BHK") :
    480 ≤ r.area_sqft ∧ r.area_sqft ≤ 720 ∧
    9000 ≤ r.price_per_sqft ∧ r.price_per_sqft ≤ 21000 := by
  obtain ⟨c, hc, t, ht, hcn, htn, harea, hpps, -, -, -, -, -, -, -⟩ := genRecord_ok h
  have hmu : c.2 = ⟨15000, 0.4, 0.8⟩ := cities_info_mumbai hc (hcn ▸ hcity)
  have h2b : t.2 = ⟨600, 900⟩ := property_types_2bhk ht (htn ▸ htype)
  rw [hmu] at harea hpps
  rw [h2b] at harea
  set ba := pyRandint s (pos + 2) (600 : ℤ) 900 with hba
  have hba1 : (600 : ℤ) ≤ ba := pyRandint_ge s (pos + 2) 600 900
  have hba2 : ba ≤ 900 := pyRandint_le s (pos + 2) (by norm_num)
  have hbaQ1 : (600 : ℚ) ≤ (ba : ℚ) := by exact_mod_cast hba1
  have hbaQ2 : (ba : ℚ) ≤ 900 := by exact_mod_cast hba2
  set u := pyUniform s (pos + 3) (1 - (0.4 : ℚ)) (1 + (0.4 : ℚ)) with hu
  have hu1 : (1 : ℚ) - 0.4 ≤ u := pyUniform_ge s (pos + 3) (by norm_num)
  have hu2 : u < 1 + (0.4 : ℚ) := pyUniform_lt s (pos + 3) (by norm_num)
  have harea2 : r.area_sqft = pyInt ((ba : ℚ) * 0.8) := harea
  have hpps2 : r.price_per_sqft = pyInt ((15000 : ℚ) * u) := hpps
  have hx1 : (480 : ℚ) ≤ (ba : ℚ) * 0.8 := by nlinarith
  have hx2 : (ba : ℚ) * 0.8 ≤ 720 := by nlinarith
  have hy1 : (9000 : ℚ) ≤ (15000 : ℚ) * u := by nlinarith
  have hy2 : (15000 : ℚ) * u < 21000 := by nlinarith
  refine ⟨?_, ?_, ?_, ?_⟩
  · rw [harea2, pyInt_eq_floor (by linarith), Int.le_floor]
    exact_mod_cast hx1
  · rw [harea2, pyInt_eq_floor (by linarith)]
    have := Int.floor_le_floor (α := ℚ) hx2
    rw [show ((720 : ℚ)) = ((720 : ℤ) : ℚ) by norm_num, Int.floor_intCast] at this
    exact this
  · rw [hpps2, pyInt_eq_floor (by linarith), Int.le_floor]
    exact_mod_cast hy1
  · rw [hpps2, pyInt_eq_floor (by linarith)]
    have : ⌊(15000 : ℚ) * u⌋ < (21000 : ℤ) := by
      rw [Int.floor_lt]
      exact_mod_cast hy2
    omega

lemma record_price_pos {s : Nat → Nat} {now : ℤ} {pos : Nat} {r : PropertyRecord}
    (h : genRecord cities_info property_types s now pos = Except.ok r) :
    0 < r.price_lakhs := by
  obtain ⟨c, hc, t, ht, -, -, harea, hpps, hage, -, -, hls, -, -, hprice⟩ := genRecord_ok h
  obtain ⟨hcb, hcv0, hcv, hcm⟩ := cities_info_bounds hc
  obtain ⟨htm, htmm⟩ := property_types_bounds ht
  have hba1 : (400 : ℤ) ≤ pyRandint s (pos + 2) t.2.min_area t.2.max_area :=
    le_trans htm (pyRandint_ge s (pos + 2) _ _)
  have harea320 : (320 : ℤ) ≤ r.area_sqft := by
    rw [harea]; exact pyInt_area_ge hba1 hcm
  have hu : 1 - c.2.price_variation ≤ pyUniform s (pos + 3)
      (1 - c.2.price_variation) (1 + c.2.price_variation) :=
    pyUniform_ge s (pos + 3) (by linarith)
  have hpps3250 : (3250 : ℤ) ≤ r.price_per_sqft := by
    rw [hpps]; exact pyInt_pps_ge hcb hcv0 hcv hu
  rw [hprice]
  refine priceFormula_pos hpps3250 harea320 ?_ ?_ ?_ ?_
  · rw [hls]; exact pyRandint_ge s (pos + 7) 1 10
  · rw [hls]; exact pyRandint_le s (pos + 7) (by norm_num)
  · rw [hage]; exact pyRandint_ge s (pos + 4) 0 25
  · rw [hage]; exact pyRandint_le s (pos + 4) (by norm_num)

lemma round2_eval_up (n : ℤ) {q : ℚ} (h1 : (n : ℚ) ≤ q * 100) (h2 : q * 100 < (n : ℚ) + 1)
    (h3 : 1/2 < q * 100 - (n : ℚ)) : round2 q = ((n + 1 : ℤ) : ℚ) / 100 := by
  have hf : ⌊q * 100⌋ = n := by
    rw [Int.floor_eq_iff]
    exact ⟨h1, by exact_mod_cast h2⟩
  rw [round2, roundHalfEven, hf]
  rw [if_neg (by push_cast; linarith), if_pos (by push_cast; linarith)]

lemma genRecord_constStream (now : ℤ) :
    genRecord cities_info property_types constStream now 0 = Except.ok
      { city := "Mumbai", property_type := "1BHK", area_sqft := 320,
        price_lakhs := 53/2, price_per_sqft := 9000, property_age_years := 0,
        floor_number := 1, total_floors := 1, location_score := 1,
        listing_date := now - 1, month_listed := yearMonthOf (now - 1) } := by
  have hc : pyChoice constStream 0 cities_info
      = Except.ok ("Mumbai", (⟨15000, 0.4, 0.8⟩ : CityInfo)) := rfl
  have ht : pyChoice constStream (0 + 1) property_types
      = Except.ok ("1BHK", (⟨400, 600⟩ : TypeInfo)) := rfl
  have hba : pyRandint constStream (0 + 2) 400 600 = 400 := rfl
  have hage : pyRandint constStream (0 + 4) 0 25 = 0 := rfl
  have hfl : pyRandint constStream (0 + 5) 1 20 = 1 := rfl
  have htf : pyRandint constStream (0 + 6) 1 25 = 1 := rfl
  have hls : pyRandint constStream (0 + 7) 1 10 = 1 := rfl
  have hdays : pyRandint constStream (0 + 8) 1 730 = 1 := rfl
  have hu : pyUniform constStream (0 + 3) (1 - (0.4 : ℚ)) (1 + (0.4 : ℚ)) = 3/5 := by
    rw [pyUniform, pyRandom]
    norm_num [constStream]
  have harea : pyInt (((400 : ℤ) : ℚ) * 0.8) = 320 := by
    rw [pyInt, if_pos (by norm_num)]
    rw [show (((400 : ℤ) : ℚ) * 0.8) = ((320 : ℤ) : ℚ) by norm_num, Int.floor_intCast]
  have hpps : pyInt (((15000 : ℤ) : ℚ) * (3/5)) = 9000 := by
    rw [pyInt, if_pos (by norm_num)]
    rw [show (((15000 : ℤ) : ℚ) * (3/5)) = ((9000 : ℤ) : ℚ) by norm_num, Int.floor_intCast]
  unfold genRecord
  rw [hc]
  dsimp only
  rw [ht]
  dsimp only
  rw [hba, hu, harea, hpps, hage, hfl, htf, hls, hdays]
  have hprice : round2 ((((9000 : ℤ) * (320 : ℤ) : ℤ) : ℚ) / 100000
      * (1 + (((1 : ℤ) : ℚ) - 5) * 0.02) * (1 - ((0 : ℤ) : ℚ) * 0.01)) = 53/2 := by
    refine Eq.trans (round2_eval_up 2649 ?_ ?_ ?_) ?_
    · push_cast; norm_num
    · push_cast; norm_num
    · push_cast; norm_num
    · norm_num
  rw [hprice]

lemma genLoop_one (cities : List (String × CityInfo)) (types : List (String × TypeInfo))
    (s : Nat → Nat) (now : ℤ) (pos : Nat) :
    genLoop cities types s now 1 pos =
      Except.map (fun r => ([r], pos + 9)) (genRecord cities types s now pos) := by
  unfold genLoop
  cases genRecord cities types s now pos with
  | error e => rfl
  | ok r => rfl

lemma constRun (now : ℤ) :
    create_realistic_property_data constStream now 1 0 = Except.ok
      ([{ city := "Mumbai", property_type := "1BHK", area_sqft := 320,
          price_lakhs := 53/2, price_per_sqft := 9000, property_age_years := 0,
          floor_number := 1, total_floors := 1, location_score := 1,
          listing_date := now - 1, month_listed := yearMonthOf (now - 1) }], 9) := by
  unfold create_realistic_property_data
  rw [show (1 : ℤ).toNat = 1 from rfl, genLoop_one, genRecord_constStream]
  rfl

lemma constRun_zero :
    create_realistic_property_data constStream 0 1 0 = Except.ok ([rec0], 9) := by
  rw [constRun]
  norm_num [rec0]
  decide

lemma pyChoice_error {α : Type} {s : Nat → Nat} {pos : Nat} {l : List α} {e : GenError}
    (h : pyChoice s pos l = Except.error e) : e = GenError.indexError := by
  unfold pyChoice at h
  cases hg : l[s pos % l.length]? with
  | none => rw [hg] at h; cases h; rfl
  | some a => rw [hg] at h; exact absurd h (by simp)

lemma round2_eval_down (n : ℤ) {q : ℚ} (h1 : (n : ℚ) ≤ q * 100)
    (h2 : q * 100 - (n : ℚ) < 1/2) : round2 q = ((n : ℤ) : ℚ) / 100 := by
  have hf : ⌊q * 100⌋ = n := by
    rw [Int.floor_eq_iff]
    exact ⟨h1, by push_cast; linarith⟩
  rw [round2, roundHalfEven, hf]
  rw [if_pos (by push_cast; linarith)]

lemma genRecord_mumbaiStream (now : ℤ) :
    genRecord cities_info property_types mumbaiStream now 0 = Except.ok
      { city := "Mumbai", property_type := "2BHK", area_sqft := 480,
        price_lakhs := 1987/50, price_per_sqft := 9000, property_age_years := 0,
        floor_number := 1, total_floors := 1, location_score := 1,
        listing_date := now - 1, month_listed := yearMonthOf (now - 1) } := by
  have hc : pyChoice mumbaiStream 0 cities_info
      = Except.ok ("Mumbai", (⟨15000, 0.4, 0.8⟩ : CityInfo)) := rfl
  have ht : pyChoice mumbaiStream (0 + 1) property_types
      = Except.ok ("2BHK", (⟨600, 900⟩ : TypeInfo)) := rfl
  have hba : pyRandint mumbaiStream (0 + 2) 600 900 = 600 := rfl
  have hage : pyRandint mumbaiStream (0 + 4) 0 25 = 0 := rfl
  have hfl : pyRandint mumbaiStream (0 + 5) 1 20 = 1 := rfl
  have htf : pyRandint mumbaiStream (0 + 6) 1 25 = 1 := rfl
  have hls : pyRandint mumbaiStream (0 + 7) 1 10 = 1 := rfl
  have hdays : pyRandint mumbaiStream (0 + 8) 1 730 = 1 := rfl
  have hu : pyUniform mumbaiStream (0 + 3) (1 - (0.4 : ℚ)) (1 + (0.4 : ℚ)) = 3/5 := by
    rw [pyUniform, pyRandom]
    norm_num [mumbaiStream]
  have harea : pyInt (((600 : ℤ) : ℚ) * 0.8) = 480 := by
    rw [pyInt, if_pos (by norm_num)]
    rw [show (((600 : ℤ) : ℚ) * 0.8) = ((480 : ℤ) : ℚ) by norm_num, Int.floor_intCast]
  have hpps : pyInt (((15000 : ℤ) : ℚ) * (3/5)) = 9000 := by
    rw [pyInt, if_pos (by norm_num)]
    rw [show (((15000 : ℤ) : ℚ) * (3/5)) = ((9000 : ℤ) : ℚ) by norm_num, Int.floor_intCast]
  unfold genRecord
  rw [hc]
  dsimp only
  rw [ht]
  dsimp only
  rw [hba, hu, harea, hpps, hage, hfl, htf, hls, hdays]
  have hprice : round2 ((((9000 : ℤ) * (480 : ℤ) : ℤ) : ℚ) / 100000
      * (1 + (((1 : ℤ) : ℚ) - 5) * 0.02) * (1 - ((0 : ℤ) : ℚ) * 0.01)) = 1987/50 := by
    refine Eq.trans (round2_eval_down 3974 ?_ ?_) ?_
    · push_cast; norm_num
    · push_cast; norm_num
    · norm_num
  rw [hprice]

lemma mumbaiRun :
    create_realistic_property_data mumbaiStream 0 1 0 = Except.ok ([rec1], 9) := by
  unfold create_realistic_property_data
  rw [show (1 : ℤ).toNat = 1 from rfl, genLoop_one, genRecord_mumbaiStream]
  norm_num [rec1, Except.map]
  decide

/-- C1: the claim states that for every fixed seed, count, and profile
inputs, two invocations of the generator produce identical output
sequences field-for-field, including `listing_date` and `month_listed`.
This is false: `listing_date` is computed from the ambient wall clock
(`datetime.now()`), not from the seed, so two invocations of the very same
seeded stream at different times differ.  Concretely, the run at day `0`
and the run at day `5` disagree. -/
theorem C1_counterexample :
    create_realistic_property_data constStream 0 1 0 ≠
      create_realistic_property_data constStream 5 1 0 := by
  intro h
  rw [constRun_zero, constRun] at h
  injection h with h
  injection h with h1 h2
  injection h1 with h3 h4
  have h5 := congrArg PropertyRecord.listing_date h3
  norm_num [rec0] at h5

/-- C1 (amended): with the ambient inputs made explicit, the generator is
a pure function of the stream, the cursor, the count and the reference
time, and every field other than `listing_date` and `month_listed` is
independent of the reference time: two invocations with the same stream
and cursor agree on all sampled fields whatever the two wall-clock times
are. -/
theorem C1_theorem (cities : List (String × CityInfo)) (types : List (String × TypeInfo))
    (s : Nat → Nat) (now1 now2 : ℤ) (n pos : Nat) :
    Except.map (fun rp => (rp.1.map sampledFields, rp.2))
      (genLoop cities types s now1 n pos) =
    Except.map (fun rp => (rp.1.map sampledFields, rp.2))
      (genLoop cities types s now2 n pos) :=
  genLoop_map_sampled cities types s now1 now2 n pos

/-- C2: the claim states that a call with `count = 0` or `count = -5`
raises `InvalidArgumentError`.  This is false: the function has no count
validation; `for i in range(n)` simply performs no iterations, and both
calls return an empty record list normally. -/
theorem C2_counterexample :
    create_realistic_property_data constStream 0 0 0 = Except.ok ([], 0) ∧
    create_realistic_property_data constStream 0 (-5) 0 = Except.ok ([], 0) :=
  ⟨rfl, rfl⟩

/-- C2 (amended): for every count `c ≤ 0` the generator raises nothing
and returns the empty record sequence, leaving the stream cursor where it
was. -/
theorem C2_theorem (s : Nat → Nat) (now : ℤ) (c : ℤ) (pos : Nat) (h : c ≤ 0) :
    create_realistic_property_data s now c pos = Except.ok ([], pos) := by
  unfold create_realistic_property_data
  rw [show c.toNat = 0 by omega]
  rfl

/-- C2 witness: the amended theorem applied at count `-5`. -/
theorem C2_witness :
    (-5 : ℤ) ≤ 0 ∧ create_realistic_property_data constStream 0 (-5) 0 = Except.ok ([], 0) :=
  ⟨by norm_num, C2_theorem constStream 0 (-5) 0 (by norm_num)⟩

/-- C3: for every record produced by the generator, the stored
`price_lakhs` equals `round(rawTotal * locationBonus * agePenalty, 2)`
recomputed from the stored `price_per_sqft`, `area_sqft`,
`location_score` and `property_age_years` via the source formula; in
particular the total price is a deterministic function of those four
fields. -/
theorem C3_theorem (s : Nat → Nat) (now : ℤ) (c : ℤ) (pos : Nat)
    (recs : List PropertyRecord) (p : Nat) (r : PropertyRecord)
    (h : create_realistic_property_data s now c pos = Except.ok (recs, p))
    (hr : r ∈ recs) :
    r.price_lakhs =
      priceFormula r.price_per_sqft r.area_sqft r.location_score r.property_age_years := by
  obtain ⟨q, hq⟩ := genLoop_mem h hr
  obtain ⟨-, -, -, -, -, -, -, -, -, -, -, -, -, -, hprice⟩ := genRecord_ok hq
  exact hprice

/-- C3 witness: the theorem applied to the concrete run from the constant
stream. -/
theorem C3_witness :
    create_realistic_property_data constStream 0 1 0 = Except.ok ([rec0], 9) ∧
    rec0.price_lakhs =
      priceFormula rec0.price_per_sqft rec0.area_sqft rec0.location_score
        rec0.property_age_years :=
  ⟨constRun_zero, C3_theorem constStream 0 1 0 [rec0] 9 rec0 constRun_zero (by simp)⟩

/-- C4: for every positive count the generator succeeds and returns an
ordered sequence of exactly that many records. -/
theorem C4_theorem (s : Nat → Nat) (now : ℤ) (c : ℤ) (pos : Nat) (h : 0 < c) :
    ∃ recs p, create_realistic_property_data s now c pos = Except.ok (recs, p) ∧
      (recs.length : ℤ) = c := by
  obtain ⟨recs, p, hl⟩ :=
    genLoop_total s now (show cities_info ≠ [] by simp [cities_info])
      (show property_types ≠ [] by simp [property_types]) c.toNat pos
  refine ⟨recs, p, hl, ?_⟩
  have := (genLoop_spec hl).1
  omega

/-- C4 witness: the theorem applied at count `3`. -/
theorem C4_witness :
    ∃ recs p, create_realistic_property_data constStream 0 3 0 = Except.ok (recs, p) ∧
      (recs.length : ℤ) = 3 :=
  C4_theorem constStream 0 3 0 (by norm_num)

/-- C5: for every record produced by the generator,
`total_floors >= floor_number` (the second draw is
`randint(floor_number, 25)`). -/
theorem C5_theorem (s : Nat → Nat) (now : ℤ) (c : ℤ) (pos : Nat)
    (recs : List PropertyRecord) (p : Nat) (r : PropertyRecord)
    (h : create_realistic_property_data s now c pos = Except.ok (recs, p))
    (hr : r ∈ recs) :
    r.floor_number ≤ r.total_floors := by
  obtain ⟨q, hq⟩ := genLoop_mem h hr
  exact (genRecord_bounds hq).2.2.2.2.2.2.1

/-- C5 witness: the theorem applied to the concrete run from the constant
stream. -/
theorem C5_witness :
    create_realistic_property_data constStream 0 1 0 = Except.ok ([rec0], 9) ∧
    rec0.floor_number ≤ rec0.total_floors :=
  ⟨constRun_zero, C5_theorem constStream 0 1 0 [rec0] 9 rec0 constRun_zero (by simp)⟩

/-- C6: for every record produced by the generator,
`1 <= location_score <= 10`, `0 <= property_age_years <= 25`,
`1 <= floor_number <= 20` and `floor_number <= total_floors <= 25`. -/
theorem C6_theorem (s : Nat → Nat) (now : ℤ) (c : ℤ) (pos : Nat)
    (recs : List PropertyRecord) (p : Nat) (r : PropertyRecord)
    (h : create_realistic_property_data s now c pos = Except.ok (recs, p))
    (hr : r ∈ recs) :
    1 ≤ r.location_score ∧ r.location_score ≤ 10 ∧
    0 ≤ r.property_age_years ∧ r.property_age_years ≤ 25 ∧
    1 ≤ r.floor_number ∧ r.floor_number ≤ 20 ∧
    r.floor_number ≤ r.total_floors ∧ r.total_floors ≤ 25 := by
  obtain ⟨q, hq⟩ := genLoop_mem h hr
  exact genRecord_bounds hq

/-- C6 witness: the theorem applied to the concrete run from the constant
stream. -/
theorem C6_witness :
    create_realistic_property_data constStream 0 1 0 = Except.ok ([rec0], 9) ∧
    (1 ≤ rec0.location_score ∧ rec0.location_score ≤ 10 ∧
      0 ≤ rec0.property_age_years ∧ rec0.property_age_years ≤ 25 ∧
      1 ≤ rec0.floor_number ∧ rec0.floor_number ≤ 20 ∧
      rec0.floor_number ≤ rec0.total_floors ∧ rec0.total_floors ≤ 25) :=
  ⟨constRun_zero, C6_theorem constStream 0 1 0 [rec0] 9 rec0 constRun_zero (by simp)⟩

/-- C7: every record produced by the generator whose city is Mumbai
(base price 15000, variation 0.4, area multiplier 0.8) and whose type is
2BHK (area 600-900) has `area_sqft` in `[480, 720]` and `price_per_sqft`
in `[9000, 21000]`. -/
theorem C7_theorem (s : Nat → Nat) (now : ℤ) (c : ℤ) (pos : Nat)
    (recs : List PropertyRecord) (p : Nat) (r : PropertyRecord)
    (h : create_realistic_property_data s now c pos = Except.ok (recs, p))
    (hr : r ∈ recs) (hcity : r.city = "Mumbai") (htype : r.property_type = "2BHK") :
    480 ≤ r.area_sqft ∧ r.area_sqft ≤ 720 ∧
    9000 ≤ r.price_per_sqft ∧ r.price_per_sqft ≤ 21000 := by
  obtain ⟨q, hq⟩ := genLoop_mem h hr
  exact record_mumbai_2bhk hq hcity htype

/-- C7 witness: the theorem applied to the concrete run that draws the
Mumbai 2BHK combination. -/
theorem C7_witness :
    create_realistic_property_data mumbaiStream 0 1 0 = Except.ok ([rec1], 9) ∧
    (480 ≤ rec1.area_sqft ∧ rec1.area_sqft ≤ 720 ∧
      9000 ≤ rec1.price_per_sqft ∧ rec1.price_per_sqft ≤ 21000) :=
  ⟨mumbaiRun, C7_theorem mumbaiStream 0 1 0 [rec1] 9 rec1 mumbaiRun (by simp)
    (by simp [rec1]) (by simp [rec1])⟩

/-- C8: the claim states that a call with empty city profiles (or empty
type profiles) raises `ConfigurationError` before producing any output.
This is false in its error class: there is no configuration validation in
the code; the failure is an `IndexError` raised by `random.choice` on the
empty sequence at the very first draw.  Concretely, with the city list
empty the run errors with `indexError`, not `configurationError`. -/
theorem C8_counterexample :
    genLoop [] property_types constStream 0 1 0 = Except.error GenError.indexError ∧
    genLoop [] property_types constStream 0 1 0 ≠ Except.error GenError.configurationError :=
  ⟨rfl, by decide⟩

/-- C8 (amended): with either profile list empty and a positive count,
the generator fails with an `IndexError` from `random.choice` on the
first record, producing no output. -/
theorem C8_theorem (cities : List (String × CityInfo)) (types : List (String × TypeInfo))
    (s : Nat → Nat) (now : ℤ) (n : Nat) (pos : Nat) (h : 0 < n) :
    genLoop [] types s now n pos = Except.error GenError.indexError ∧
    genLoop cities [] s now n pos = Except.error GenError.indexError := by
  obtain ⟨m, rfl⟩ : ∃ m, n = m + 1 := ⟨n - 1, by omega⟩
  constructor
  · have hg : genRecord [] types s now pos = Except.error GenError.indexError := by
      unfold genRecord
      rw [pyChoice_nil]
    unfold genLoop
    rw [hg]
  · have hg : genRecord cities [] s now pos = Except.error GenError.indexError := by
      unfold genRecord
      cases hc : pyChoice s pos cities with
      | error e => rw [pyChoice_error hc]
      | ok cpair =>
        obtain ⟨cn, cd⟩ := cpair
        rw [pyChoice_nil]
    unfold genLoop
    rw [hg]

/-- C8 witness: the amended theorem applied at count `1` with the
profile tables of the module itself on the other side. -/
theorem C8_witness :
    genLoop [] property_types constStream 0 1 0 = Except.error GenError.indexError ∧
    genLoop cities_info [] constStream 0 1 0 = Except.error GenError.indexError :=
  C8_theorem cities_info property_types constStream 0 1 0 (by norm_num)

/-- C9: the claim states that the generator has no side effects, leaves
all outside state unchanged including the random-number source state, and
reads nothing but its arguments.  This is false: every record consumes
nine draws from the process-wide seeded random source, so the call moves
the global stream cursor (and it also reads the wall clock, see C1).
Concretely a one-record call started at cursor `0` returns with the
cursor at `9`. -/
theorem C9_counterexample :
    create_realistic_property_data constStream 0 1 0 = Except.ok ([rec0], 9) ∧
    (9 : Nat) ≠ 0 :=
  ⟨constRun_zero, by norm_num⟩

/-- C9 (amended): the generator performs no I/O apart from reading the
wall clock, and its only effect on outside state is deterministic
consumption of the global random stream: a successful call started at
cursor `pos` with count `c` returns with the cursor at `pos + 9 * c`. -/
theorem C9_theorem (s : Nat → Nat) (now : ℤ) (c : ℤ) (pos : Nat)
    (recs : List PropertyRecord) (p : Nat)
    (h : create_realistic_property_data s now c pos = Except.ok (recs, p)) :
    p = pos + 9 * c.toNat :=
  (genLoop_spec h).2

/-- C9 witness: the amended theorem applied to the concrete run from the
constant stream. -/
theorem C9_witness : (9 : Nat) = 0 + 9 * (1 : ℤ).toNat :=
  C9_theorem constStream 0 1 0 [rec0] 9 constRun_zero

/-- C10: for every record produced by the generator the stored
`price_lakhs` is strictly positive: the area is at least 320, the price
per sqft at least 3250, the location bonus at least 0.92 and the age
penalty at least 0.75, so the rounded product is positive. -/
theorem C10_theorem (s : Nat → Nat) (now : ℤ) (c : ℤ) (pos : Nat)
    (recs : List PropertyRecord) (p : Nat) (r : PropertyRecord)
    (h : create_realistic_property_data s now c pos = Except.ok (recs, p))
    (hr : r ∈ recs) :
    0 < r.price_lakhs := by
  obtain ⟨q, hq⟩ := genLoop_mem h hr
  exact record_price_pos hq

/-- C10 witness: the theorem applied to the concrete run from the
constant stream. -/
theorem C10_witness :
    create_realistic_property_data constStream 0 1 0 = Except.ok ([rec0], 9) ∧
    0 < rec0.price_lakhs :=
  ⟨constRun_zero, C10_theorem constStream 0 1 0 [rec0] 9 rec0 constRun_zero (by simp)⟩
